import Mathlib

/-!
Verification of the document-management server (Express/Drizzle `ts` sources)
against its natural-language specification.  The server code in
`src/server/routes.ts`, `src/server/storage.ts` and `src/server/auth.ts` is
shallowly embedded below: database state is passed explicitly as lists of
rows, timestamps carry the calendar year they fall in, and each HTTP route
becomes a pure function from its inputs (and the relevant state) to its
response together with the activity-log rows it appends.
-/

namespace DocMgmt

/-! ## String helpers mirroring the JavaScript string operations used -/

/-- ASCII upper-casing of a character, as JavaScript `toUpperCase` acts on
the ASCII strings used by this server. -/
def upChar (c : Char) : Char :=
  if 'a' ≤ c ∧ c ≤ 'z' then Char.ofNat (c.toNat - 32) else c

/-- ASCII upper-casing of a string (JavaScript `String.prototype.toUpperCase`). -/
def upStr (s : String) : String :=
  ⟨s.data.map upChar⟩

/-- ASCII lower-casing of a character (JavaScript `toLowerCase`). -/
def lowChar (c : Char) : Char :=
  if 'A' ≤ c ∧ c ≤ 'Z' then Char.ofNat (c.toNat + 32) else c

/-- ASCII lower-casing of a string (JavaScript `String.prototype.toLowerCase`). -/
def lowStr (s : String) : String :=
  ⟨s.data.map lowChar⟩

/-- Replace the first occurrence of `pat` (JavaScript
`String.prototype.replace` with a string pattern replaces only the first
occurrence). -/
def replaceFirstAux (pat rep : List Char) : List Char → List Char
  | [] => []
  | c :: rest =>
    if pat.isPrefixOf (c :: rest) then rep ++ (c :: rest).drop pat.length
    else c :: replaceFirstAux pat rep rest

/-- JavaScript `s.replace(pat, rep)` for plain string patterns. -/
def replaceFirst (s pat rep : String) : String :=
  ⟨replaceFirstAux pat.data rep.data s.data⟩

/-- `sub` occurs as a contiguous substring of `s`
(JavaScript `String.prototype.includes`). -/
def strHasSub (s sub : String) : Bool :=
  let rec go : List Char → Bool
    | [] => sub.data.isPrefixOf []
    | c :: rest => sub.data.isPrefixOf (c :: rest) || go rest
  go s.data

/-- `s` starts with `p` (JavaScript `String.prototype.startsWith`). -/
def strStarts (s p : String) : Bool :=
  p.data.isPrefixOf s.data

/-- First `n` characters of `s` (JavaScript `substr(0, n)` / `slice(0, n)`). -/
def strTake (s : String) (n : Nat) : String :=
  ⟨s.data.take n⟩

/-- Drop the first `n` characters of `s` (JavaScript `substring(n)`). -/
def strDrop (s : String) (n : Nat) : String :=
  ⟨s.data.drop n⟩

/-- JavaScript `a || b` on an optional string: `undefined`, `null` and the
empty string are falsy, any other string stands. -/
def jsOrStr (o : Option String) (d : String) : String :=
  match o with
  | some s => if s = "" then d else s
  | none => d

/-- Decimal digit character. -/
def digitChar (n : Nat) : Char :=
  Char.ofNat (48 + n)

/-- Fuel-driven decimal rendering: prepends the decimal digits of `n` to
`acc`.  Fuel-structural so the kernel can evaluate it. -/
def natToDecAux : Nat → Nat → List Char → List Char
  | 0, _, acc => acc
  | _ + 1, 0, acc => acc
  | fuel + 1, n + 1, acc =>
    natToDecAux fuel ((n + 1) / 10) (digitChar ((n + 1) % 10) :: acc)

/-- Decimal digit list of `n` (JavaScript `Number.prototype.toString` for the
natural numbers used by the server). -/
def natToDecList (n : Nat) : List Char :=
  if n = 0 then ['0'] else natToDecAux n n []

/-- Decimal string of `n`. -/
def natToDec (n : Nat) : String :=
  ⟨natToDecList n⟩

/-- JavaScript `count.toString().padStart(3, '0')`. -/
def pad3 (n : Nat) : String :=
  ⟨List.replicate (3 - (natToDecList n).length) '0' ++ natToDecList n⟩

/-- Value of a decimal digit list (used to invert `pad3`). -/
def decVal (l : List Char) : Nat :=
  l.foldl (fun a c => a * 10 + (c.toNat - 48)) 0

/-! ## Data model (src/shared/schema.ts, SQLite variant) -/

/-- A point in time, abstracting an epoch-milliseconds value by the calendar
year it falls in plus its position within that year. -/
structure Timestamp where
  year : Nat
  sub : Nat
deriving DecidableEq

/-- A `folders` row.  `securityCode` is the nullable `security_code` column
(`none` is SQL `NULL`). -/
structure Folder where
  id : String
  name : String
  securityCode : Option String
  hasSecurityCode : Bool
deriving DecidableEq

/-- A `users` row (fields relevant to the verified routes). -/
structure User where
  id : String
  name : String
  loginCode : String
  role : String
  isActive : Bool
deriving DecidableEq

/-- One slide of a template-created presentation document. -/
structure Slide where
  title : String
  body : String
deriving DecidableEq

/-- The structured `content` payload of a document, mirroring the JSON
object shapes the server creates and inspects: optional `title`, `body`,
`cells` (an object rendered in insertion order) and `slides` fields. -/
structure Content where
  title : Option String
  body : Option String
  cells : Option (List (String × String))
  slides : Option (List Slide)
deriving DecidableEq

/-- A `documents` row.  `documentCode` and `content` are nullable columns;
`folderId` is the nullable folder reference. -/
structure Document where
  id : String
  name : String
  originalName : String
  category : String
  fileType : String
  fileSize : Nat
  filePath : String
  folderId : Option String
  uploadedBy : String
  documentCode : Option String
  content : Option Content
  createdAt : Timestamp
  updatedAt : Timestamp
deriving DecidableEq

/-- An `activity_logs` row (fields the claims are about). -/
structure ActivityLog where
  userId : String
  action : String
  resourceType : String
  resourceId : Option String
deriving DecidableEq

/-- A multer-parsed uploaded file (`req.file`). -/
structure FileUpload where
  originalname : String
  mimetype : String
  size : Nat
  path : String
deriving DecidableEq

/-! ## Storage layer (src/server/storage.ts) -/

/-- `DatabaseStorage.getFolder`: first `folders` row with the given id. -/
def getFolder (folders : List Folder) (id : String) : Option Folder :=
  folders.find? (fun f => f.id == id)

/-- `DatabaseStorage.getDocument`: first `documents` row with the given id. -/
def getDocument (docs : List Document) (id : String) : Option Document :=
  docs.find? (fun d => d.id == id)

/-- JavaScript strict equality `storedCode === suppliedCode` where the stored
code has type `string | null` and the supplied one `string | undefined`:
it holds exactly when both are the same string (`null === undefined` is
false, and a string never equals `null`/`undefined`). -/
def storedEqSupplied (stored supplied : Option String) : Bool :=
  match stored, supplied with
  | some a, some b => a == b
  | _, _ => false

/-- `DatabaseStorage.verifyFolderAccess`. -/
def verifyFolderAccess (folders : List Folder) (folderId : String)
    (securityCode : Option String) : Bool :=
  match getFolder folders folderId with
  | none => false
  | some folder =>
    if folder.hasSecurityCode = false then true
    else storedEqSupplied folder.securityCode securityCode

/-- `DatabaseStorage.getDocumentCount`: number of `documents` rows whose
`category` equals `documentType` (all years). -/
def getDocumentCount (docs : List Document) (documentType : String) : Nat :=
  (docs.filter (fun d => d.category == documentType)).length

/-- Modelled from the spec: the count the claim C1 describes, namely the
number of category-`documentType` documents created in calendar year
`year` (the code's `getDocumentCountByTypeAndYear`, which the create route
does not call). -/
def specCountInYear (docs : List Document) (documentType : String)
    (year : Nat) : Nat :=
  (docs.filter (fun d => d.category == documentType && d.createdAt.year == year)).length

/-! ## Route embeddings (src/server/routes.ts, src/server/auth.ts) -/

/-- Outcome of `POST /api/folders/:id/verify-access`. -/
inductive VerifyResult where
  | notFound
  | success
  | invalidCode
deriving DecidableEq

/-- `POST /api/folders/:id/verify-access`: 404 when the folder is missing;
immediate success (and no log) when the folder has no security code;
otherwise 401 unless the supplied code strictly equals the stored one, in
which case an `access` log row is appended. -/
def verifyAccessRoute (folders : List Folder) (folderId : String)
    (securityCode : Option String) (userId : String) :
    VerifyResult × List ActivityLog :=
  match getFolder folders folderId with
  | none => (VerifyResult.notFound, [])
  | some folder =>
    if folder.hasSecurityCode = false then (VerifyResult.success, [])
    else if storedEqSupplied folder.securityCode securityCode then
      (VerifyResult.success, [⟨userId, "access", "folder", some folderId⟩])
    else (VerifyResult.invalidCode, [])

/-- The seven MIME types accepted by the multer `fileFilter`. -/
def allowedMimes : List String :=
  ["application/pdf",
   "application/msword",
   "application/vnd.openxmlformats-officedocument.wordprocessingml.document",
   "application/vnd.ms-excel",
   "application/vnd.openxmlformats-officedocument.spreadsheetml.sheet",
   "application/vnd.ms-powerpoint",
   "application/vnd.openxmlformats-officedocument.presentationml.presentation"]

/-- The upload route's `getFileType`: substring classification of the MIME
type. -/
def getFileType (mimetype : String) : String :=
  if strHasSub mimetype "pdf" then "pdf"
  else if strHasSub mimetype "word" then "word"
  else if strHasSub mimetype "excel" || strHasSub mimetype "spreadsheet" then "excel"
  else if strHasSub mimetype "powerpoint" || strHasSub mimetype "presentation" then "powerpoint"
  else "unknown"

/-- `POST /api/documents/upload`.  Modelled from the spec: a file whose MIME
type is outside the allow-list is rejected by the multer `fileFilter`
before the handler runs, and the boundary maps that rejection to a 400
response with no document created (spec section 6); the error-mapping
middleware itself is not under `src/`.  An accepted file produces the
document row built by the handler plus one `upload` log row. -/
def uploadRoute (file : FileUpload) (customName category folderId : Option String)
    (userId docId : String) (now : Timestamp) :
    Except Nat (Document × List ActivityLog) :=
  if allowedMimes.contains file.mimetype then
    let doc : Document :=
      { id := docId
        name := jsOrStr customName file.originalname
        originalName := file.originalname
        category := jsOrStr category "memos"
        fileType := getFileType file.mimetype
        fileSize := file.size
        filePath := file.path
        folderId := folderId
        uploadedBy := userId
        documentCode := none
        content := none
        createdAt := now
        updatedAt := now }
    Except.ok (doc, [⟨userId, "upload", "document", some docId⟩])
  else Except.error 400

/-- `documentType.toUpperCase().replace('_', '-')` from the create route. -/
def typeCodeOf (documentType : String) : String :=
  replaceFirst (upStr documentType) "_" "-"

/-- The document code computed by `POST /api/documents/create`:
`` `${typeCode}-${year}-${count.toString().padStart(3, '0')}` ``. -/
def mkDocumentCode (documentType : String) (year : Nat) (count : Nat) : String :=
  typeCodeOf documentType ++ "-" ++ natToDec year ++ "-" ++ pad3 count

/-- Modelled from the spec: the document code claim C1 predicts, with the
sequence number scoped to documents created in the current year. -/
def specClaimCode (docs : List Document) (documentType : String) (year : Nat) : String :=
  mkDocumentCode documentType year (specCountInYear docs documentType year + 1)

/-- The initial `content` object the create route synthesizes for each
`fileType` (`{}` for any other value). -/
def initialContent (documentType title fileType documentCode dateStr : String) :
    Content :=
  if fileType = "word" then
    ⟨some title,
     some ("This " ++ replaceFirst documentType "_" " " ++
       " document was created on " ++ dateStr ++ "."),
     none, none⟩
  else if fileType = "excel" then
    ⟨none, none,
     some [("cell_0", "Document Title"), ("cell_1", title),
           ("cell_4", "Created Date"), ("cell_5", dateStr),
           ("cell_8", "Document Code"), ("cell_9", documentCode)],
     none⟩
  else if fileType = "powerpoint" then
    ⟨none, none, none,
     some [⟨title,
       upStr (replaceFirst documentType "_" " ") ++ "\n\nCreated: " ++
         dateStr ++ "\nCode: " ++ documentCode⟩]⟩
  else ⟨none, none, none, none⟩

/-- `POST /api/documents/create` (create from template): computes the
document code from `getDocumentCount(documentType) + 1` and the current
year, synthesizes the initial content, stores a zero-size document under
the `templates/` sentinel path and appends one `create_document` log row.
`dateStr` stands for `new Date().toLocaleDateString()`. -/
def createDocumentRoute (docs : List Document)
    (documentType title fileType : String) (folderId : Option String)
    (userId docId : String) (now : Timestamp) (dateStr : String) :
    Document × List ActivityLog :=
  let documentCode := mkDocumentCode documentType now.year
    (getDocumentCount docs documentType + 1)
  let doc : Document :=
    { id := docId
      name := title
      originalName := title
      category := documentType
      fileType := fileType
      fileSize := 0
      filePath := "templates/" ++ documentCode
      folderId := folderId
      uploadedBy := userId
      documentCode := some documentCode
      content := some (initialContent documentType title fileType documentCode dateStr)
      createdAt := now
      updatedAt := now }
  (doc, [⟨userId, "create_document", "document", some docId⟩])

/-- JavaScript `originalname.replace(/\.[^/.]+$/, "")`: strip a final dot
followed by one or more characters none of which is a dot or slash. -/
def removeExtension (s : String) : String :=
  let rev := s.data.reverse
  let tailPart := rev.takeWhile (fun c => c ≠ '.' && c ≠ '/')
  match rev.drop tailPart.length with
  | '.' :: rest => if tailPart.isEmpty then s else ⟨rest.reverse⟩
  | _ => s

/-- Node `path.extname`: the extension of the basename including its dot;
empty for dotless names, names whose only dot leads (`.hidden`) and the
special basename `..`. -/
def extname (s : String) : String :=
  let base := (s.data.reverse.takeWhile (fun c => c ≠ '/')).reverse
  if base = ['.', '.'] then ""
  else
    let afterDot := base.reverse.takeWhile (fun c => c ≠ '.')
    if afterDot.length = base.length then ""
    else if base.length - afterDot.length - 1 = 0 then ""
    else ⟨'.' :: afterDot.reverse⟩

/-- The update route's file-type computation:
`path.extname(originalname).toLowerCase().substring(1)`. -/
def extFileType (originalname : String) : String :=
  strDrop (lowStr (extname originalname)) 1

/-- `PUT /api/documents/:id/update`: 404 when the document is missing, 400
when no file was uploaded; otherwise the row is updated in place (new
name, original name, path, size, extension-derived file type, category
defaulting to the old one, fresh `updatedAt`) and one `update` log row is
appended. -/
def updateFileRoute (docs : List Document) (docId : String)
    (file : Option FileUpload) (category : Option String)
    (userId : String) (now : Timestamp) :
    Except Nat (Document × List ActivityLog) :=
  match getDocument docs docId with
  | none => Except.error 404
  | some existing =>
    match file with
    | none => Except.error 400
    | some f =>
      let updated : Document :=
        { existing with
          name := removeExtension f.originalname
          originalName := f.originalname
          filePath := f.path
          fileSize := f.size
          fileType := extFileType f.originalname
          category := jsOrStr category existing.category
          updatedAt := now }
      Except.ok (updated, [⟨userId, "update", "document", some docId⟩])

/-- `generateDocumentContent` from the routes file: fixed company header,
a rendering of the structured content, and a fixed footer.  `fmtDate`
stands for `Date.prototype.toLocaleDateString` and `today` for the
rendering of `new Date()`. -/
def generateDocumentContent (doc : Document) (fmtDate : Timestamp → String)
    (today : String) : String :=
  let cat := upStr (replaceFirst doc.category "_" " ")
  let header :=
    "ZEOLF TECHNOLOGY\nDocument Management System\n\n" ++ doc.name ++
    "\nDocument Code: " ++ jsOrStr doc.documentCode "N/A" ++
    "\nCategory: " ++ cat ++
    "\nCreated: " ++ fmtDate doc.createdAt ++ "\n\n"
  let body :=
    match doc.content with
    | none => ""
    | some ct =>
      (match ct.title with
       | some t => if t = "" then "" else "Title: " ++ t ++ "\n\n"
       | none => "") ++
      (match ct.body with
       | some b => if b = "" then "" else b ++ "\n\n"
       | none => "") ++
      (match ct.cells with
       | some cells =>
         "Excel Data:\n" ++
         String.join (cells.map (fun p => p.1 ++ ": " ++ p.2 ++ "\n")) ++ "\n"
       | none => "") ++
      (match ct.slides with
       | some slides =>
         "PowerPoint Slides:\n" ++
         String.join (slides.enum.map (fun p =>
           "Slide " ++ natToDec (p.1 + 1) ++ ": " ++ p.2.title ++ "\n" ++
           p.2.body ++ "\n\n"))
       | none => "")
  let footer :=
    "\n---\nZEOLF Technology - " ++ cat ++
    "\nDocument Code: " ++
    (match doc.documentCode with | some c => c | none => "null") ++
    "\nGenerated: " ++ today ++ "\n"
  header ++ body ++ footer

/-- Outcome of `GET /api/documents/:id/download`. -/
inductive DownloadResult where
  | notFound
  | generated (body : String)
  | fileStream (path name : String)
deriving DecidableEq

/-- `GET /api/documents/:id/download`.  `disk` is the set of paths whose
backing file exists (`fs.access`).  Missing document: 404.  Existing
backing file: stream it (one `download` log).  Missing file under a
`templates/` path: synthesize the content (one `download` log).  Missing
file elsewhere: 404 with no log. -/
def downloadRoute (docs : List Document) (docId : String)
    (disk : List String) (fmtDate : Timestamp → String) (today : String)
    (userId : String) : DownloadResult × List ActivityLog :=
  match getDocument docs docId with
  | none => (DownloadResult.notFound, [])
  | some doc =>
    if disk.contains doc.filePath then
      (DownloadResult.fileStream doc.filePath doc.originalName,
       [⟨userId, "download", "document", some doc.id⟩])
    else if strStarts doc.filePath "templates/" then
      (DownloadResult.generated (generateDocumentContent doc fmtDate today),
       [⟨userId, "download", "document", some doc.id⟩])
    else (DownloadResult.notFound, [])

/-- `POST /api/documents/:id/share`: 404 when the document is missing,
otherwise one `share` log row alongside the created share. -/
def shareRoute (docs : List Document) (docId userId : String) :
    Except Nat (List ActivityLog) :=
  match getDocument docs docId with
  | none => Except.error 404
  | some _ => Except.ok [⟨userId, "share", "document", some docId⟩]

/-- `POST /api/login` (src/server/auth.ts): 401 unless an active user has
exactly that login code; success appends one `login` log row. -/
def loginRoute (usersL : List User) (loginCode : String) :
    Except Nat (User × List ActivityLog) :=
  match usersL.find? (fun u => u.loginCode == loginCode) with
  | none => Except.error 401
  | some u =>
    if u.isActive then Except.ok (u, [⟨u.id, "login", "system", none⟩])
    else Except.error 401

/-- `POST /api/logout` (src/server/auth.ts): one `logout` row when a user
was attached to the session, none otherwise. -/
def logoutRoute (currentUser : Option String) : List ActivityLog :=
  match currentUser with
  | some uid => [⟨uid, "logout", "system", none⟩]
  | none => []

/-- `PATCH /api/admin/users/:id`: 404 when the user is missing, otherwise
one `update_user` log row naming the updated user. -/
def updateUserRoute (usersL : List User) (targetId adminId : String) :
    Except Nat (List ActivityLog) :=
  match usersL.find? (fun u => u.id == targetId) with
  | none => Except.error 404
  | some u => Except.ok [⟨adminId, "update_user", "user", some u.id⟩]

/-! ## Login-code generation (src/server/storage.ts, generateLoginCode)

`Math.random().toString(36).substr(2, 3)` takes the first three printed
base-36 fractional digits of a random number; a draw is modelled as the
list of those printed digits (values in `Fin 36`).  `randomUUID()` starts
with eight hexadecimal digits, so `substr(0, 8)` of it is modelled by the
first eight digit values (`Fin 16`) of the UUID. -/

/-- The base-36 digit alphabet used by `Number.prototype.toString(36)`. -/
def b36char (d : Fin 36) : Char :=
  ("0123456789abcdefghijklmnopqrstuvwxyz".data).getD d.val '0'

/-- The lowercase hexadecimal alphabet of `crypto.randomUUID()`. -/
def hexChar (d : Fin 16) : Char :=
  ("0123456789abcdef".data).getD d.val '0'

/-- One candidate code
`` `ZT-${r1.toUpperCase()}-${r2.toUpperCase()}` `` built from the i-th pair
of random draws. -/
def candidate (draws : Nat → List (Fin 36) × List (Fin 36)) (i : Nat) : String :=
  "ZT-" ++ upStr ⟨((draws i).1.take 3).map b36char⟩ ++ "-" ++
    upStr ⟨((draws i).2.take 3).map b36char⟩

/-- The UUID fallback `` `ZT-${randomUUID().substr(0, 8).toUpperCase()}` ``. -/
def uuidFallback (uuid : List (Fin 16)) : String :=
  "ZT-" ++ upStr ⟨(uuid.take 8).map hexChar⟩

/-- The `while (attempts < maxAttempts)` loop of `generateLoginCode`. -/
def genLoop (existing : List String) (draws : Nat → List (Fin 36) × List (Fin 36))
    (uuid : List (Fin 16)) : Nat → Nat → String
  | 0, _ => uuidFallback uuid
  | fuel + 1, i =>
    let c := candidate draws i
    if existing.contains c then genLoop existing draws uuid fuel (i + 1)
    else c

/-- `DatabaseStorage.generateLoginCode` with `maxAttempts = 10`; `existing`
is the set of login codes already present (`getUserByLoginCode`). -/
def generateLoginCode (existing : List String)
    (draws : Nat → List (Fin 36) × List (Fin 36)) (uuid : List (Fin 16)) :
    String :=
  genLoop existing draws uuid 10 0

/-- `c` is an upper-case base-36 character (`[0-9A-Z]`). -/
def isB36Upper (c : Char) : Bool :=
  c.isDigit || ('A' ≤ c && c ≤ 'Z')

/-- `c` is an upper-case hexadecimal character (`[0-9A-F]`). -/
def isHexUpper (c : Char) : Bool :=
  c.isDigit || ('A' ≤ c && c ≤ 'F')

/-- The string matches `ZT-XXX-XXX` with `X ∈ [0-9A-Z]`. -/
def formatMain (s : String) : Bool :=
  match s.data with
  | ['Z', 'T', '-', a, b, c, '-', d, e, f] =>
    isB36Upper a && isB36Upper b && isB36Upper c &&
    isB36Upper d && isB36Upper e && isB36Upper f
  | _ => false

/-- The string matches `ZT-` followed by eight characters of `[0-9A-F]`. -/
def formatFallback (s : String) : Bool :=
  match s.data with
  | ['Z', 'T', '-', a, b, c, d, e, f, g, h] =>
    isHexUpper a && isHexUpper b && isHexUpper c && isHexUpper d &&
    isHexUpper e && isHexUpper f && isHexUpper g && isHexUpper h
  | _ => false

/-! ## Concrete fixtures used by witnesses and counterexamples -/

/-- A security-code-protected folder. -/
def hrFolder : Folder :=
  ⟨"f1", "HR", some "1234", true⟩

/-- A folder without a security code. -/
def openFolder : Folder :=
  ⟨"f2", "Public", none, false⟩

/-- A category-`memos` document created in 2025. -/
def prior2025Memo : Document :=
  { id := "d0"
    name := "Old memo"
    originalName := "Old memo"
    category := "memos"
    fileType := "word"
    fileSize := 0
    filePath := "templates/MEMOS-2025-001"
    folderId := none
    uploadedBy := "u0"
    documentCode := some "MEMOS-2025-001"
    content := none
    createdAt := ⟨2025, 0⟩
    updatedAt := ⟨2025, 0⟩ }

/-- An uploaded PDF document whose backing file may or may not exist. -/
def uploadedPdf : Document :=
  { id := "d1"
    name := "Contract"
    originalName := "contract.pdf"
    category := "contracts"
    fileType := "pdf"
    fileSize := 2048
    filePath := "uploads/123-456.pdf"
    folderId := some "f1"
    uploadedBy := "u1"
    documentCode := none
    content := none
    createdAt := ⟨2026, 3⟩
    updatedAt := ⟨2026, 3⟩ }

/-- A template-created word document (no bytes on disk). -/
def templateMemo : Document :=
  { id := "d2"
    name := "Q1 Update"
    originalName := "Q1 Update"
    category := "memos"
    fileType := "word"
    fileSize := 0
    filePath := "templates/MEMOS-2026-001"
    folderId := none
    uploadedBy := "u1"
    documentCode := some "MEMOS-2026-001"
    content := some ⟨some "Q1 Update", some "body", none, none⟩
    createdAt := ⟨2026, 5⟩
    updatedAt := ⟨2026, 5⟩ }

/-- A concrete uploaded file fixture (a DOCX). -/
def docxFile : FileUpload :=
  { originalname := "Report.DOCX"
    mimetype := "application/vnd.openxmlformats-officedocument.wordprocessingml.document"
    size := 777
    path := "uploads/999-111.DOCX" }

/-- A concrete uploaded file fixture (a PDF). -/
def pdfFile : FileUpload :=
  { originalname := "contract.pdf"
    mimetype := "application/pdf"
    size := 2048
    path := "uploads/123-456.pdf" }

/-- A concrete rejected file fixture (plain text). -/
def txtFile : FileUpload :=
  { originalname := "notes.txt"
    mimetype := "text/plain"
    size := 10
    path := "uploads/123-457.txt" }


/-- A constant random-draw stream: every draw prints three base-36 digits. -/
def fixedDraws : Nat → List (Fin 36) × List (Fin 36) :=
  fun _ => ([1, 2, 3], [10, 11, 12])

/-- Hex digits of a fixture UUID's first eight characters. -/
def fixedUuid : List (Fin 16) :=
  [15, 4, 7, 10, 12, 1, 0, 11]

/-! ## Arithmetic facts about the decimal rendering and `pad3` -/

theorem decVal_foldl (l : List Char) (a : Nat) :
    l.foldl (fun x c => x * 10 + (c.toNat - 48)) a = a * 10 ^ l.length + decVal l := by
  induction l generalizing a with
  | nil => simp [decVal]
  | cons c t ih =>
    have hc : decVal (c :: t) = (0 * 10 + (c.toNat - 48)) * 10 ^ t.length + decVal t := by
      show t.foldl _ (0 * 10 + (c.toNat - 48)) = _
      rw [ih]
    simp only [List.foldl_cons, List.length_cons] at *
    rw [ih, hc]
    ring

theorem digitChar_toNat (d : Nat) (h : d < 10) : (digitChar d).toNat = 48 + d := by
  interval_cases d <;> decide

theorem decVal_natToDecAux (fuel : Nat) :
    ∀ (n : Nat) (acc : List Char), n ≤ fuel →
      decVal (natToDecAux fuel n acc) = n * 10 ^ acc.length + decVal acc := by
  induction fuel with
  | zero =>
    intro n acc h
    interval_cases n
    simp [natToDecAux]
  | succ fuel ih =>
    intro n acc h
    match n with
    | 0 => simp [natToDecAux]
    | m + 1 =>
      have hstep : natToDecAux (fuel + 1) (m + 1) acc =
          natToDecAux fuel ((m + 1) / 10) (digitChar ((m + 1) % 10) :: acc) := rfl
      have hdiv : (m + 1) / 10 ≤ fuel := by
        have := Nat.div_lt_self (Nat.succ_pos m) (by norm_num : 1 < 10)
        omega
      have hcons : decVal (digitChar ((m + 1) % 10) :: acc) =
          ((m + 1) % 10) * 10 ^ acc.length + decVal acc := by
        show acc.foldl _ (0 * 10 + ((digitChar ((m + 1) % 10)).toNat - 48)) = _
        rw [digitChar_toNat _ (Nat.mod_lt _ (by norm_num))]
        rw [decVal_foldl]
        have hv : 0 * 10 + (48 + (m + 1) % 10 - 48) = (m + 1) % 10 := by omega
        rw [hv]
      rw [hstep, ih _ _ hdiv, hcons]
      obtain ⟨q, hq⟩ : ∃ q, (m + 1) / 10 = q := ⟨_, rfl⟩
      obtain ⟨r, hr⟩ : ∃ r, (m + 1) % 10 = r := ⟨_, rfl⟩
      have hqr : 10 * q + r = m + 1 := by rw [← hq, ← hr]; exact Nat.div_add_mod _ _
      rw [hq, hr, List.length_cons, pow_succ, ← hqr]
      ring

theorem decVal_natToDecList (n : Nat) : decVal (natToDecList n) = n := by
  rcases eq_or_ne n 0 with h | h
  · subst h; decide
  · unfold natToDecList
    rw [if_neg h, decVal_natToDecAux n n [] (le_refl n)]
    simp [decVal]

theorem decVal_replicate_zero (k : Nat) (l : List Char) :
    decVal (List.replicate k '0' ++ l) = decVal l := by
  induction k with
  | zero => simp
  | succ k ih =>
    have h0 : (0 * 10 + ('0'.toNat - 48)) = 0 := by decide
    calc decVal (List.replicate (k + 1) '0' ++ l)
        = (List.replicate k '0' ++ l).foldl (fun a c => a * 10 + (c.toNat - 48))
            (0 * 10 + ('0'.toNat - 48)) := by
          simp [List.replicate_succ, decVal]
      _ = decVal (List.replicate k '0' ++ l) := by rw [h0]; rfl
      _ = decVal l := ih

theorem decVal_pad3 (n : Nat) : decVal (pad3 n).data = n := by
  show decVal (List.replicate (3 - (natToDecList n).length) '0' ++ natToDecList n) = n
  rw [decVal_replicate_zero, decVal_natToDecList]

theorem pad3_ne (a b : Nat) (h : a ≠ b) : pad3 a ≠ pad3 b := by
  intro he
  exact h (by rw [← decVal_pad3 a, ← decVal_pad3 b, he])

theorem strData_append (s t : String) : (s ++ t).data = s.data ++ t.data := by
  cases s; cases t; rfl

theorem mkDocumentCode_ne (dt : String) (y : Nat) (a b : Nat) (h : a ≠ b) :
    mkDocumentCode dt y a ≠ mkDocumentCode dt y b := by
  intro he
  unfold mkDocumentCode at he
  have hd := congrArg String.data he
  simp only [strData_append, List.append_assoc] at hd
  have h1 := List.append_cancel_left hd
  have h2 := List.append_cancel_left h1
  have h3 := List.append_cancel_left h2
  have hp := List.append_cancel_left h3
  exact h (by rw [← decVal_pad3 a, ← decVal_pad3 b, hp])

theorem getDocumentCount_append_same (docs : List Document) (d : Document)
    (c : String) (h : d.category = c) :
    getDocumentCount (docs ++ [d]) c = getDocumentCount docs c + 1 := by
  simp [getDocumentCount, List.filter_append, h]

/-! ## Lookup lemmas -/

theorem getDocument_id (docs : List Document) (docId : String) (doc : Document)
    (h : getDocument docs docId = some doc) : doc.id = docId := by
  have := List.find?_some h
  simpa [beq_iff_eq] using this

theorem getFolder_id (folders : List Folder) (fid : String) (f : Folder)
    (h : getFolder folders fid = some f) : f.id = fid := by
  have := List.find?_some h
  simpa [beq_iff_eq] using this

/-! ## The login-code generation loop -/

theorem exists_three {α : Type} (l : List α) (hl : 3 ≤ l.length) :
    ∃ a b c t, l = a :: b :: c :: t := by
  match l with
  | a :: b :: c :: t => exact ⟨a, b, c, t, rfl⟩
  | [] | [_] | [_, _] => simp at hl

theorem exists_eight {α : Type} (l : List α) (hl : 8 ≤ l.length) :
    ∃ a b c d e f g h t, l = a :: b :: c :: d :: e :: f :: g :: h :: t := by
  match l with
  | a :: b :: c :: d :: e :: f :: g :: h :: t => exact ⟨a, b, c, d, e, f, g, h, t, rfl⟩
  | [] | [_] | [_, _] | [_, _, _] | [_, _, _, _] | [_, _, _, _, _]
  | [_, _, _, _, _, _] | [_, _, _, _, _, _, _] => simp at hl

theorem genLoop_spec (existing : List String)
    (draws : Nat → List (Fin 36) × List (Fin 36)) (uuid : List (Fin 16)) :
    ∀ (fuel start : Nat),
      (∃ k, k < fuel ∧
        (∀ j, j < k → existing.contains (candidate draws (start + j)) = true) ∧
        existing.contains (candidate draws (start + k)) = false ∧
        genLoop existing draws uuid fuel start = candidate draws (start + k)) ∨
      ((∀ j, j < fuel → existing.contains (candidate draws (start + j)) = true) ∧
        genLoop existing draws uuid fuel start = uuidFallback uuid) := by
  intro fuel
  induction fuel with
  | zero =>
    intro start
    right
    exact ⟨fun j hj => absurd hj (Nat.not_lt_zero j), rfl⟩
  | succ fuel ih =>
    intro start
    by_cases hc : existing.contains (candidate draws start) = true
    · have hg : genLoop existing draws uuid (fuel + 1) start =
          genLoop existing draws uuid fuel (start + 1) := by
        simp only [genLoop]
        rw [if_pos hc]
      rcases ih (start + 1) with ⟨k, hk, hall, hnot, heq⟩ | ⟨hall, heq⟩
      · left
        refine ⟨k + 1, by omega, ?_, ?_, ?_⟩
        · intro j hj
          match j with
          | 0 => simpa using hc
          | j + 1 =>
            have harr : start + (j + 1) = start + 1 + j := by omega
            rw [harr]
            exact hall j (by omega)
        · have harr : start + (k + 1) = start + 1 + k := by omega
          rw [harr]
          exact hnot
        · rw [hg, heq]
          have harr : start + 1 + k = start + (k + 1) := by omega
          rw [harr]
      · right
        refine ⟨?_, by rw [hg, heq]⟩
        intro j hj
        match j with
        | 0 => simpa using hc
        | j + 1 =>
          have harr : start + (j + 1) = start + 1 + j := by omega
          rw [harr]
          exact hall j (by omega)
    · left
      have hcf : existing.contains (candidate draws start) = false := by
        cases hcb : existing.contains (candidate draws start)
        · rfl
        · exact absurd hcb hc
      refine ⟨0, by omega, fun j hj => absurd hj (Nat.not_lt_zero j), by simpa using hcf, ?_⟩
      simp only [genLoop]
      rw [if_neg hc]
      simp

theorem isB36Upper_up_b36 : ∀ d : Fin 36, isB36Upper (upChar (b36char d)) = true := by
  decide

theorem isHexUpper_up_hex : ∀ d : Fin 16, isHexUpper (upChar (hexChar d)) = true := by
  decide

theorem formatMain_candidate (draws : Nat → List (Fin 36) × List (Fin 36)) (i : Nat)
    (h1 : 3 ≤ (draws i).1.length) (h2 : 3 ≤ (draws i).2.length) :
    formatMain (candidate draws i) = true := by
  obtain ⟨a, b, c, t, he1⟩ := exists_three _ h1
  obtain ⟨d, e, f, t2, he2⟩ := exists_three _ h2
  have hcand : candidate draws i =
      ⟨['Z', 'T', '-', upChar (b36char a), upChar (b36char b), upChar (b36char c),
        '-', upChar (b36char d), upChar (b36char e), upChar (b36char f)]⟩ := by
    rw [candidate, he1, he2]
    rfl
  rw [hcand]
  show (isB36Upper (upChar (b36char a)) && isB36Upper (upChar (b36char b)) &&
    isB36Upper (upChar (b36char c)) && isB36Upper (upChar (b36char d)) &&
    isB36Upper (upChar (b36char e)) && isB36Upper (upChar (b36char f))) = true
  simp [isB36Upper_up_b36]

theorem formatFallback_uuidFallback (uuid : List (Fin 16)) (hl : 8 ≤ uuid.length) :
    formatFallback (uuidFallback uuid) = true := by
  obtain ⟨a, b, c, d, e, f, g, h, t, he⟩ := exists_eight _ hl
  have hfb : uuidFallback uuid =
      ⟨['Z', 'T', '-', upChar (hexChar a), upChar (hexChar b), upChar (hexChar c),
        upChar (hexChar d), upChar (hexChar e), upChar (hexChar f),
        upChar (hexChar g), upChar (hexChar h)]⟩ := by
    rw [uuidFallback, he]
    rfl
  rw [hfb]
  show (isHexUpper (upChar (hexChar a)) && isHexUpper (upChar (hexChar b)) &&
    isHexUpper (upChar (hexChar c)) && isHexUpper (upChar (hexChar d)) &&
    isHexUpper (upChar (hexChar e)) && isHexUpper (upChar (hexChar f)) &&
    isHexUpper (upChar (hexChar g)) && isHexUpper (upChar (hexChar h))) = true
  simp [isHexUpper_up_hex]

/-! ## Claim theorems -/

/-- Strict equality of stored and supplied codes holds exactly when both are
the same string. -/
theorem storedEqSupplied_iff (st su : Option String) :
    storedEqSupplied st su = true ↔ ∃ s, su = some s ∧ st = some s := by
  cases st with
  | none => simp [storedEqSupplied]
  | some a =>
    cases su with
    | none => simp [storedEqSupplied]
    | some b =>
      simp only [storedEqSupplied, beq_iff_eq, Option.some.injEq]
      constructor
      · intro hab
        exact ⟨b, rfl, hab⟩
      · rintro ⟨s, hbs, has⟩
        rw [has, hbs]

/-- C2: for every existing folder F, `verifyFolderAccess` returns true for
every supplied code (including the empty string and an absent code) when
`F.hasSecurityCode` is false; when `F.hasSecurityCode` is true it returns
true exactly when the supplied code is, as a case-sensitive string
equality, the stored security code. -/
theorem C2_verify_access (folders : List Folder) (F : Folder) (code : Option String)
    (hF : getFolder folders F.id = some F) :
    (F.hasSecurityCode = false → verifyFolderAccess folders F.id code = true) ∧
    (F.hasSecurityCode = true →
      (verifyFolderAccess folders F.id code = true ↔
        ∃ s, code = some s ∧ F.securityCode = some s)) := by
  constructor
  · intro h
    unfold verifyFolderAccess
    rw [hF]
    simp [h]
  · intro h
    unfold verifyFolderAccess
    rw [hF]
    show (if F.hasSecurityCode = false then true
      else storedEqSupplied F.securityCode code) = true ↔ _
    rw [h, if_neg (by simp)]
    exact storedEqSupplied_iff F.securityCode code

/-- Witness for C2: the protected folder fixture with its exact code. -/
theorem C2_verify_access_witness :
    getFolder [hrFolder] hrFolder.id = some hrFolder ∧
    ((hrFolder.hasSecurityCode = false →
        verifyFolderAccess [hrFolder] hrFolder.id (some "1234") = true) ∧
     (hrFolder.hasSecurityCode = true →
        (verifyFolderAccess [hrFolder] hrFolder.id (some "1234") = true ↔
          ∃ s, (some "1234" : Option String) = some s ∧ hrFolder.securityCode = some s))) :=
  ⟨by decide, C2_verify_access [hrFolder] hrFolder (some "1234") (by decide)⟩

/-- C9: for a folder id that matches no folder, `verifyFolderAccess` denies
every supplied code, and the verify-access route answers 404 before any
code comparison. -/
theorem C9_missing_folder (folders : List Folder) (fid : String)
    (h : getFolder folders fid = none) (code : Option String) (uid : String) :
    verifyFolderAccess folders fid code = false ∧
    verifyAccessRoute folders fid code uid = (VerifyResult.notFound, []) := by
  unfold verifyFolderAccess verifyAccessRoute
  rw [h]
  exact ⟨rfl, rfl⟩

/-- Witness for C9: an id absent from the folder list. -/
theorem C9_missing_folder_witness :
    getFolder [hrFolder] "zz" = none ∧
    (verifyFolderAccess [hrFolder] "zz" (some "1234") = false ∧
     verifyAccessRoute [hrFolder] "zz" (some "1234") "u1" = (VerifyResult.notFound, [])) :=
  ⟨by decide, C9_missing_folder [hrFolder] "zz" (by decide) (some "1234") "u1"⟩

/-- C3: a successful file update keeps `id`, `documentCode` and `folderId`,
keeps `category` when no override is supplied, and replaces `filePath`,
`fileSize`, `fileType`, `originalName` and `updatedAt` with values derived
from the new file. -/
theorem C3_update_preserves (docs : List Document) (did : String) (D : Document)
    (hD : getDocument docs did = some D) (f : FileUpload) (catOv : Option String)
    (uid : String) (now : Timestamp) :
    ∃ d logs, updateFileRoute docs did (some f) catOv uid now = Except.ok (d, logs) ∧
      d.id = D.id ∧ d.documentCode = D.documentCode ∧ d.folderId = D.folderId ∧
      (catOv = none → d.category = D.category) ∧
      d.filePath = f.path ∧ d.fileSize = f.size ∧ d.originalName = f.originalname ∧
      d.fileType = extFileType f.originalname ∧ d.updatedAt = now := by
  unfold updateFileRoute
  rw [hD]
  exact ⟨_, _, rfl, rfl, rfl, rfl, fun hc => by subst hc; rfl, rfl, rfl, rfl, rfl, rfl⟩

/-- Witness for C3: replacing the uploaded PDF fixture by the DOCX fixture. -/
theorem C3_update_preserves_witness :
    getDocument [uploadedPdf] "d1" = some uploadedPdf ∧
    (∃ d logs, updateFileRoute [uploadedPdf] "d1" (some docxFile) none "u1" ⟨2026, 9⟩ =
        Except.ok (d, logs) ∧
      d.id = uploadedPdf.id ∧ d.documentCode = uploadedPdf.documentCode ∧
      d.folderId = uploadedPdf.folderId ∧
      ((none : Option String) = none → d.category = uploadedPdf.category) ∧
      d.filePath = docxFile.path ∧ d.fileSize = docxFile.size ∧
      d.originalName = docxFile.originalname ∧
      d.fileType = extFileType docxFile.originalname ∧ d.updatedAt = ⟨2026, 9⟩) :=
  ⟨by decide,
   C3_update_preserves [uploadedPdf] "d1" uploadedPdf (by decide) docxFile none "u1" ⟨2026, 9⟩⟩

/-- C10: after a successful update the stored `fileType` is the lower-cased
extension of the new file name without its dot (for instance `docx`), a
value outside the documented enumeration and different from the MIME-based
classification that the upload route would assign to the same file. -/
theorem C10_update_fileType (docs : List Document) (did : String) (D : Document)
    (hD : getDocument docs did = some D) (f : FileUpload) (catOv : Option String)
    (uid : String) (now : Timestamp) :
    (∃ d logs, updateFileRoute docs did (some f) catOv uid now = Except.ok (d, logs) ∧
      d.fileType = extFileType f.originalname) ∧
    extFileType "Report.DOCX" = "docx" ∧
    ("docx" : String) ∉ (["pdf", "word", "excel", "powerpoint", "unknown"] : List String) ∧
    getFileType "application/vnd.openxmlformats-officedocument.wordprocessingml.document" =
      "word" ∧
    extFileType "Report.DOCX" ≠
      getFileType "application/vnd.openxmlformats-officedocument.wordprocessingml.document" := by
  refine ⟨?_, by decide, by decide, by decide, by decide⟩
  unfold updateFileRoute
  rw [hD]
  exact ⟨_, _, rfl, rfl⟩

/-- Witness for C10: updating the uploaded PDF fixture with the DOCX fixture. -/
theorem C10_update_fileType_witness :
    getDocument [uploadedPdf] "d1" = some uploadedPdf ∧
    ((∃ d logs, updateFileRoute [uploadedPdf] "d1" (some docxFile) none "u1" ⟨2026, 9⟩ =
        Except.ok (d, logs) ∧ d.fileType = extFileType docxFile.originalname) ∧
     extFileType "Report.DOCX" = "docx" ∧
     ("docx" : String) ∉ (["pdf", "word", "excel", "powerpoint", "unknown"] : List String) ∧
     getFileType "application/vnd.openxmlformats-officedocument.wordprocessingml.document" =
       "word" ∧
     extFileType "Report.DOCX" ≠
       getFileType "application/vnd.openxmlformats-officedocument.wordprocessingml.document") :=
  ⟨by decide,
   C10_update_fileType [uploadedPdf] "d1" uploadedPdf (by decide) docxFile none "u1" ⟨2026, 9⟩⟩

/-- C4: an upload with an allow-listed MIME type yields a document whose
`fileSize` is the uploaded byte count and whose `fileType` is the
substring-based MIME classification; the classification sends each of the
seven allowed types to its documented class; a MIME type outside the
allow-list is rejected with a 400 response and no document. -/
theorem C4_upload_classification (f : FileUpload) (cn cat fid : Option String)
    (uid did : String) (now : Timestamp) :
    (f.mimetype ∈ allowedMimes →
      ∃ d logs, uploadRoute f cn cat fid uid did now = Except.ok (d, logs) ∧
        d.fileSize = f.size ∧ d.fileType = getFileType f.mimetype) ∧
    (f.mimetype ∉ allowedMimes → uploadRoute f cn cat fid uid did now = Except.error 400) ∧
    (getFileType "application/pdf" = "pdf" ∧
     getFileType "application/msword" = "word" ∧
     getFileType "application/vnd.openxmlformats-officedocument.wordprocessingml.document" =
       "word" ∧
     getFileType "application/vnd.ms-excel" = "excel" ∧
     getFileType "application/vnd.openxmlformats-officedocument.spreadsheetml.sheet" =
       "excel" ∧
     getFileType "application/vnd.ms-powerpoint" = "powerpoint" ∧
     getFileType "application/vnd.openxmlformats-officedocument.presentationml.presentation" =
       "powerpoint") := by
  refine ⟨?_, ?_, by decide⟩
  · intro h
    have hc : allowedMimes.contains f.mimetype = true := by simpa using h
    unfold uploadRoute
    rw [if_pos hc]
    exact ⟨_, _, rfl, rfl, rfl⟩
  · intro h
    have hc : ¬ allowedMimes.contains f.mimetype = true := by simpa using h
    unfold uploadRoute
    rw [if_neg hc]

/-- Witness for C4: the PDF fixture is accepted, the text fixture rejected. -/
theorem C4_upload_classification_witness :
    (pdfFile.mimetype ∈ allowedMimes ∧
      ∃ d logs, uploadRoute pdfFile none none none "u1" "d9" ⟨2026, 0⟩ =
          Except.ok (d, logs) ∧
        d.fileSize = pdfFile.size ∧ d.fileType = getFileType pdfFile.mimetype) ∧
    (txtFile.mimetype ∉ allowedMimes ∧
      uploadRoute txtFile none none none "u1" "d9" ⟨2026, 0⟩ = Except.error 400) :=
  ⟨⟨by decide,
    (C4_upload_classification pdfFile none none none "u1" "d9" ⟨2026, 0⟩).1 (by decide)⟩,
   ⟨by decide,
    (C4_upload_classification txtFile none none none "u1" "d9" ⟨2026, 0⟩).2.1 (by decide)⟩⟩

/-- C5: downloading a missing document id answers 404; downloading an
existing document whose `filePath` starts with `templates/` never answers
404 and, when no backing file exists on disk, returns the content
synthesized from the structured content with the fixed company header and
footer; downloading a non-template document whose backing file is missing
answers 404. -/
theorem C5_download (docs : List Document) (did : String) (disk : List String)
    (fmtDate : Timestamp → String) (today uid : String) :
    (getDocument docs did = none →
      (downloadRoute docs did disk fmtDate today uid).1 = DownloadResult.notFound) ∧
    (∀ doc, getDocument docs did = some doc →
      (strStarts doc.filePath "templates/" = true →
        (downloadRoute docs did disk fmtDate today uid).1 ≠ DownloadResult.notFound ∧
        (disk.contains doc.filePath = false →
          (downloadRoute docs did disk fmtDate today uid).1 =
            DownloadResult.generated (generateDocumentContent doc fmtDate today))) ∧
      (strStarts doc.filePath "templates/" = false →
        disk.contains doc.filePath = false →
        (downloadRoute docs did disk fmtDate today uid).1 = DownloadResult.notFound)) := by
  constructor
  · intro h
    unfold downloadRoute
    rw [h]
  · intro doc hdoc
    have hroute : downloadRoute docs did disk fmtDate today uid =
        (if disk.contains doc.filePath = true then
          (DownloadResult.fileStream doc.filePath doc.originalName,
           [⟨uid, "download", "document", some doc.id⟩])
        else if strStarts doc.filePath "templates/" = true then
          (DownloadResult.generated (generateDocumentContent doc fmtDate today),
           [⟨uid, "download", "document", some doc.id⟩])
        else (DownloadResult.notFound, [])) := by
      unfold downloadRoute
      rw [hdoc]
    constructor
    · intro hts
      constructor
      · cases hdisk : disk.contains doc.filePath
        · rw [hroute, if_neg (by rw [hdisk]; exact Bool.false_ne_true), if_pos hts]
          simp
        · rw [hroute, if_pos hdisk]
          simp
      · intro hdisk
        rw [hroute, if_neg (by rw [hdisk]; exact Bool.false_ne_true), if_pos hts]
    · intro hts hdisk
      rw [hroute, if_neg (by rw [hdisk]; exact Bool.false_ne_true),
        if_neg (by rw [hts]; exact Bool.false_ne_true)]

/-- Witness for C5: the template memo fixture with an empty disk. -/
theorem C5_download_witness :
    getDocument [templateMemo] "d2" = some templateMemo ∧
    strStarts templateMemo.filePath "templates/" = true ∧
    ([] : List String).contains templateMemo.filePath = false ∧
    (downloadRoute [templateMemo] "d2" [] (fun _ => "6/1/2026") "7/1/2026" "u1").1 =
      DownloadResult.generated
        (generateDocumentContent templateMemo (fun _ => "6/1/2026") "7/1/2026") :=
  ⟨by decide, by decide, by decide,
   (((C5_download [templateMemo] "d2" [] (fun _ => "6/1/2026") "7/1/2026" "u1").2
      templateMemo (by decide)).1 (by decide)).2 (by decide)⟩

/-- C1 counterexample: with one category-`memos` document created in 2025
already stored, the first creation of 2026 receives sequence number 002
(the route counts category documents across all years), not the 001 that
the claim's year-scoped count predicts. -/
theorem C1_counterexample :
    (createDocumentRoute [prior2025Memo] "memos" "Title" "word" none "u1" "d9"
        ⟨2026, 0⟩ "1/1/2026").1.documentCode = some "MEMOS-2026-002" ∧
    specClaimCode [prior2025Memo] "memos" 2026 = "MEMOS-2026-001" ∧
    (createDocumentRoute [prior2025Memo] "memos" "Title" "word" none "u1" "d9"
        ⟨2026, 0⟩ "1/1/2026").1.documentCode ≠
      some (specClaimCode [prior2025Memo] "memos" 2026) :=
  ⟨by decide, by decide, by decide⟩

/-- C1 (amended): the generated code is `CODE(C)-Y-NNN` where `NNN` is the
count of all stored category-C documents across all years plus one,
zero-padded to three digits; and a second, sequential creation in the same
category and year always receives a different document code. -/
theorem C1_amended_code_sequence (docs : List Document) (dt title title2 ft ft2 : String)
    (fid fid2 : Option String) (uid did uid2 did2 : String) (now : Timestamp)
    (ds ds2 : String) :
    ((createDocumentRoute docs dt title ft fid uid did now ds).1.documentCode =
      some (mkDocumentCode dt now.year (getDocumentCount docs dt + 1))) ∧
    ((createDocumentRoute
        (docs ++ [(createDocumentRoute docs dt title ft fid uid did now ds).1])
        dt title2 ft2 fid2 uid2 did2 now ds2).1.documentCode ≠
      (createDocumentRoute docs dt title ft fid uid did now ds).1.documentCode) := by
  constructor
  · rfl
  · have hcat : (createDocumentRoute docs dt title ft fid uid did now ds).1.category = dt := rfl
    have hcount : getDocumentCount
        (docs ++ [(createDocumentRoute docs dt title ft fid uid did now ds).1]) dt =
        getDocumentCount docs dt + 1 :=
      getDocumentCount_append_same _ _ _ hcat
    have h1 : (createDocumentRoute
        (docs ++ [(createDocumentRoute docs dt title ft fid uid did now ds).1])
        dt title2 ft2 fid2 uid2 did2 now ds2).1.documentCode =
        some (mkDocumentCode dt now.year (getDocumentCount
          (docs ++ [(createDocumentRoute docs dt title ft fid uid did now ds).1]) dt + 1)) :=
      rfl
    have h2 : (createDocumentRoute docs dt title ft fid uid did now ds).1.documentCode =
        some (mkDocumentCode dt now.year (getDocumentCount docs dt + 1)) := rfl
    rw [h1, h2, hcount]
    intro he
    exact absurd (Option.some.inj he)
      (mkDocumentCode_ne dt now.year _ _ (by omega))

/-- C8: a template-created document has `fileSize` 0 and `filePath` equal to
`templates/` followed by its document code; its content is shaped by the
file type: `word` gives a title/body object, `excel` a sparse cell map
seeded with the title, creation date and document code, `powerpoint` an
array of exactly one slide carrying the given title. -/
theorem C8_create_from_template :
    (∀ (docs : List Document) (dt title ft : String) (fid : Option String)
        (uid did : String) (now : Timestamp) (ds : String),
      ((createDocumentRoute docs dt title ft fid uid did now ds).1.fileSize = 0) ∧
      ((createDocumentRoute docs dt title ft fid uid did now ds).1.documentCode =
        some (mkDocumentCode dt now.year (getDocumentCount docs dt + 1))) ∧
      ((createDocumentRoute docs dt title ft fid uid did now ds).1.filePath =
        "templates/" ++ mkDocumentCode dt now.year (getDocumentCount docs dt + 1))) ∧
    (∀ (docs : List Document) (dt title : String) (fid : Option String)
        (uid did : String) (now : Timestamp) (ds : String),
      (createDocumentRoute docs dt title "word" fid uid did now ds).1.content =
        some ⟨some title,
          some ("This " ++ replaceFirst dt "_" " " ++ " document was created on " ++
            ds ++ "."),
          none, none⟩) ∧
    (∀ (docs : List Document) (dt title : String) (fid : Option String)
        (uid did : String) (now : Timestamp) (ds : String),
      (createDocumentRoute docs dt title "excel" fid uid did now ds).1.content =
        some ⟨none, none,
          some [("cell_0", "Document Title"), ("cell_1", title),
                ("cell_4", "Created Date"), ("cell_5", ds),
                ("cell_8", "Document Code"),
                ("cell_9", mkDocumentCode dt now.year (getDocumentCount docs dt + 1))],
          none⟩) ∧
    (∀ (docs : List Document) (dt title : String) (fid : Option String)
        (uid did : String) (now : Timestamp) (ds : String),
      (createDocumentRoute docs dt title "powerpoint" fid uid did now ds).1.content =
        some ⟨none, none, none,
          some [⟨title,
            upStr (replaceFirst dt "_" " ") ++ "\n\nCreated: " ++ ds ++ "\nCode: " ++
              mkDocumentCode dt now.year (getDocumentCount docs dt + 1)⟩]⟩) :=
  ⟨fun _ _ _ _ _ _ _ _ _ => ⟨rfl, rfl, rfl⟩,
   fun _ _ _ _ _ _ _ _ => rfl,
   fun _ _ _ _ _ _ _ _ => rfl,
   fun _ _ _ _ _ _ _ _ => rfl⟩

/-- C6 counterexample: verify-access succeeds on a folder without a security
code yet appends no activity-log row, refuting "each listed successful
operation appends exactly one row". -/
theorem C6_counterexample :
    (verifyAccessRoute [openFolder] "f2" none "u1").1 = VerifyResult.success ∧
    (verifyAccessRoute [openFolder] "f2" none "u1").2 = [] :=
  ⟨by decide, by decide⟩

/-- C6 (amended): each successful upload, download, document create, file
update, share, login, authenticated logout and admin user update appends
exactly one activity-log row naming the operation, with `resourceId` set
to the affected resource where applicable; successful folder verify-access
appends exactly one row only when the folder has a security code and the
code matched, and appends no row when the folder has no security code. -/
theorem C6_amended_one_log_per_operation :
    (∀ (f : FileUpload) (cn cat fid : Option String) (uid did : String) (now : Timestamp),
      f.mimetype ∈ allowedMimes →
      ∃ d, uploadRoute f cn cat fid uid did now =
        Except.ok (d, [⟨uid, "upload", "document", some did⟩])) ∧
    (∀ (docs : List Document) (did : String) (disk : List String)
        (fmtDate : Timestamp → String) (today uid : String) (doc : Document),
      getDocument docs did = some doc →
      (downloadRoute docs did disk fmtDate today uid).1 ≠ DownloadResult.notFound →
      (downloadRoute docs did disk fmtDate today uid).2 =
        [⟨uid, "download", "document", some did⟩]) ∧
    (∀ (docs : List Document) (dt title ft : String) (fid : Option String)
        (uid did : String) (now : Timestamp) (ds : String),
      (createDocumentRoute docs dt title ft fid uid did now ds).2 =
        [⟨uid, "create_document", "document", some did⟩]) ∧
    (∀ (docs : List Document) (did : String) (D : Document) (f : FileUpload)
        (catOv : Option String) (uid : String) (now : Timestamp),
      getDocument docs did = some D →
      ∃ d, updateFileRoute docs did (some f) catOv uid now =
        Except.ok (d, [⟨uid, "update", "document", some did⟩])) ∧
    (∀ (docs : List Document) (did uid : String) (D : Document),
      getDocument docs did = some D →
      shareRoute docs did uid = Except.ok [⟨uid, "share", "document", some did⟩]) ∧
    (∀ (usersL : List User) (code : String) (u : User) (logs : List ActivityLog),
      loginRoute usersL code = Except.ok (u, logs) →
      logs = [⟨u.id, "login", "system", none⟩]) ∧
    (∀ uid : String, logoutRoute (some uid) = [⟨uid, "logout", "system", none⟩]) ∧
    (logoutRoute none = []) ∧
    (∀ (usersL : List User) (tid aid : String) (logs : List ActivityLog),
      updateUserRoute usersL tid aid = Except.ok logs →
      logs = [⟨aid, "update_user", "user", some tid⟩]) ∧
    (∀ (folders : List Folder) (F : Folder) (fid : String) (code : Option String)
        (uid : String),
      getFolder folders fid = some F → F.hasSecurityCode = false →
      verifyAccessRoute folders fid code uid = (VerifyResult.success, [])) ∧
    (∀ (folders : List Folder) (F : Folder) (fid : String) (code : Option String)
        (uid : String),
      getFolder folders fid = some F → F.hasSecurityCode = true →
      storedEqSupplied F.securityCode code = true →
      verifyAccessRoute folders fid code uid =
        (VerifyResult.success, [⟨uid, "access", "folder", some fid⟩])) := by
  refine ⟨?_, ?_, ?_, ?_, ?_, ?_, fun _ => rfl, rfl, ?_, ?_, ?_⟩
  · intro f cn cat fid uid did now h
    have hc : allowedMimes.contains f.mimetype = true := by simpa using h
    unfold uploadRoute
    rw [if_pos hc]
    exact ⟨_, rfl⟩
  · intro docs did disk fmtDate today uid doc hdoc hne
    have hid : doc.id = did := getDocument_id docs did doc hdoc
    have hroute : downloadRoute docs did disk fmtDate today uid =
        (if disk.contains doc.filePath = true then
          (DownloadResult.fileStream doc.filePath doc.originalName,
           [⟨uid, "download", "document", some doc.id⟩])
        else if strStarts doc.filePath "templates/" = true then
          (DownloadResult.generated (generateDocumentContent doc fmtDate today),
           [⟨uid, "download", "document", some doc.id⟩])
        else (DownloadResult.notFound, [])) := by
      unfold downloadRoute
      rw [hdoc]
    cases hdisk : disk.contains doc.filePath
    · cases hts : strStarts doc.filePath "templates/"
      · exfalso
        apply hne
        rw [hroute, if_neg (by rw [hdisk]; exact Bool.false_ne_true),
          if_neg (by rw [hts]; exact Bool.false_ne_true)]
      · rw [hroute, if_neg (by rw [hdisk]; exact Bool.false_ne_true), if_pos hts, hid]
    · rw [hroute, if_pos hdisk, hid]
  · intro docs dt title ft fid uid did now ds
    rfl
  · intro docs did D f catOv uid now hD
    unfold updateFileRoute
    rw [hD]
    exact ⟨_, rfl⟩
  · intro docs did uid D hD
    unfold shareRoute
    rw [hD]
  · intro usersL code u logs h
    unfold loginRoute at h
    cases hfind : usersL.find? (fun x => x.loginCode == code) with
    | none =>
      rw [hfind] at h
      exact absurd h (by simp)
    | some v =>
      rw [hfind] at h
      have h2 : (if v.isActive = true then
          Except.ok (v, [⟨v.id, "login", "system", none⟩])
        else Except.error 401) = Except.ok (u, logs) := h
      by_cases ha : v.isActive = true
      · rw [if_pos ha] at h2
        have h3 := Except.ok.inj h2
        rw [Prod.mk.injEq] at h3
        obtain ⟨hv, hl⟩ := h3
        subst hv
        exact hl.symm
      · rw [if_neg ha] at h2
        exact absurd h2 (by simp)
  · intro usersL tid aid logs h
    unfold updateUserRoute at h
    cases hfind : usersL.find? (fun x => x.id == tid) with
    | none =>
      rw [hfind] at h
      exact absurd h (by simp)
    | some v =>
      rw [hfind] at h
      have hvid : v.id = tid := by
        have := List.find?_some hfind
        simpa [beq_iff_eq] using this
      have h2 : (Except.ok [(⟨aid, "update_user", "user", some v.id⟩ : ActivityLog)] :
          Except Nat (List ActivityLog)) = Except.ok logs := h
      rw [hvid] at h2
      exact (Except.ok.inj h2).symm
  · intro folders F fid code uid hF hsec
    have hroute : verifyAccessRoute folders fid code uid =
        (if F.hasSecurityCode = false then (VerifyResult.success, [])
        else if storedEqSupplied F.securityCode code = true then
          (VerifyResult.success, [⟨uid, "access", "folder", some fid⟩])
        else (VerifyResult.invalidCode, [])) := by
      unfold verifyAccessRoute
      rw [hF]
    rw [hroute, if_pos hsec]
  · intro folders F fid code uid hF hsec hmatch
    have hroute : verifyAccessRoute folders fid code uid =
        (if F.hasSecurityCode = false then (VerifyResult.success, [])
        else if storedEqSupplied F.securityCode code = true then
          (VerifyResult.success, [⟨uid, "access", "folder", some fid⟩])
        else (VerifyResult.invalidCode, [])) := by
      unfold verifyAccessRoute
      rw [hF]
    rw [hroute, if_neg (by rw [hsec]; decide), if_pos hmatch]

/-- Witness for C6 (amended): protected verify-access with the exact code
appends exactly the one `access` row. -/
theorem C6_amended_one_log_per_operation_witness :
    getFolder [hrFolder] "f1" = some hrFolder ∧
    hrFolder.hasSecurityCode = true ∧
    storedEqSupplied hrFolder.securityCode (some "1234") = true ∧
    verifyAccessRoute [hrFolder] "f1" (some "1234") "u1" =
      (VerifyResult.success, [⟨"u1", "access", "folder", some "f1"⟩]) :=
  ⟨by decide, by decide, by decide,
   C6_amended_one_log_per_operation.2.2.2.2.2.2.2.2.2.2
     [hrFolder] hrFolder "f1" (some "1234") "u1" (by decide) (by decide) (by decide)⟩

/-- C7: `generateLoginCode` returns the first of up to ten candidate codes
that does not collide with an existing login code, in the shape
`ZT-XXX-XXX` with upper-case base-36 characters, and after ten collisions
falls back to `ZT-` followed by the upper-cased first eight characters of
a random UUID (eight upper-case hexadecimal characters) — under the
hypotheses that each random draw prints at least three base-36 fractional
digits and the UUID starts with at least eight hexadecimal digits. -/
theorem C7_login_code (existing : List String)
    (draws : Nat → List (Fin 36) × List (Fin 36)) (uuid : List (Fin 16))
    (hdraw : ∀ i, i < 10 → 3 ≤ (draws i).1.length ∧ 3 ≤ (draws i).2.length)
    (huuid : 8 ≤ uuid.length) :
    (formatMain (generateLoginCode existing draws uuid) = true ∨
     formatFallback (generateLoginCode existing draws uuid) = true) ∧
    ((∃ k, k < 10 ∧
       (∀ j, j < k → existing.contains (candidate draws j) = true) ∧
       existing.contains (candidate draws k) = false ∧
       generateLoginCode existing draws uuid = candidate draws k) ∨
     ((∀ j, j < 10 → existing.contains (candidate draws j) = true) ∧
      generateLoginCode existing draws uuid = uuidFallback uuid)) := by
  have hspec := genLoop_spec existing draws uuid 10 0
  simp only [Nat.zero_add] at hspec
  have hgen : generateLoginCode existing draws uuid = genLoop existing draws uuid 10 0 := rfl
  constructor
  · rcases hspec with ⟨k, hk, _, _, heq⟩ | ⟨_, heq⟩
    · left
      rw [hgen, heq]
      exact formatMain_candidate draws k (hdraw k hk).1 (hdraw k hk).2
    · right
      rw [hgen, heq]
      exact formatFallback_uuidFallback uuid huuid
  · rw [hgen]
    exact hspec

/-- Witness for C7: three-digit draws, an eight-digit UUID and no existing
codes. -/
theorem C7_login_code_witness :
    (∀ i, i < 10 → 3 ≤ (fixedDraws i).1.length ∧ 3 ≤ (fixedDraws i).2.length) ∧
    8 ≤ fixedUuid.length ∧
    ((formatMain (generateLoginCode [] fixedDraws fixedUuid) = true ∨
      formatFallback (generateLoginCode [] fixedDraws fixedUuid) = true) ∧
     ((∃ k, k < 10 ∧
        (∀ j, j < k → List.contains [] (candidate fixedDraws j) = true) ∧
        List.contains [] (candidate fixedDraws k) = false ∧
        generateLoginCode [] fixedDraws fixedUuid = candidate fixedDraws k) ∨
      ((∀ j, j < 10 → List.contains [] (candidate fixedDraws j) = true) ∧
       generateLoginCode [] fixedDraws fixedUuid = uuidFallback fixedUuid))) :=
  ⟨fun _ _ => ⟨Nat.le_refl 3, Nat.le_refl 3⟩, by decide,
   C7_login_code [] fixedDraws fixedUuid
     (fun _ _ => ⟨Nat.le_refl 3, Nat.le_refl 3⟩) (by decide)⟩

end DocMgmt
